import Mathlib

/-!
Verification of the SimpleAIChat WebSocket speech-transcription servers.

The repository holds three near-duplicate servers:
  src/sample4/server.py : text frames only; JSON messages of type audio_chunk
                          carry base64 audio that is decoded and handed raw
                          to the remote transcription API.
  src/sample5/server.py : binary frames are PCM; create_wav_header wraps them
                          in a 44-byte RIFF/WAVE header before the remote call;
                          text frames are parsed as JSON and then ignored.
  src/sample6/server.py : like sample5 but with a local whisper model invoked
                          through a temporary .wav file that is removed in a
                          finally block; error replies carry an extra type field.

Bytes are modelled as natural numbers below 256 in lists; Python functions
that can raise are modelled with Option or Except; the per-connection
receive loop is modelled as a fold over the list of inbound frames, which is
faithful because each handler awaits the full processing of one message
before pulling the next (the loop body never spawns tasks).
-/

/-- Little-endian bytes of a 16-bit value, as produced by the H code of
struct.pack in create_wav_header (sample5 lines 46-56, sample6 lines 62-72). -/
def u16le (n : Nat) : List Nat := [n % 256, n / 256 % 256]

/-- Little-endian bytes of a 32-bit value, as produced by the I code of
struct.pack in create_wav_header. -/
def u32le (n : Nat) : List Nat :=
  [n % 256, n / 256 % 256, n / 65536 % 256, n / 16777216 % 256]

/-- Model of the Python expression struct.pack with a single I code: the
packed four bytes when the argument fits in an unsigned 32-bit field, none
when struct.error is raised (argument out of range). -/
def packU32 (n : Nat) : Option (List Nat) :=
  if n < 4294967296 then some (u32le n) else none

/-- ASCII bytes of the magic RIFF (sample5 line 40, sample6 line 54). -/
def riffMagic : List Nat := [82, 73, 70, 70]

/-- ASCII bytes of the magic WAVE. -/
def waveMagic : List Nat := [87, 65, 86, 69]

/-- ASCII bytes of the magic fmt followed by a space. -/
def fmtMagic : List Nat := [102, 109, 116, 32]

/-- ASCII bytes of the magic data (sample5 line 60, sample6 line 77). -/
def dataMagic : List Nat := [100, 97, 116, 97]

/-- Process-wide sample-rate constant AUDIO_SAMPLE_RATE of sample5 line 31
and sample6 line 33. -/
def AUDIO_SAMPLE_RATE : Nat := 48000

/-- Bytes of the fmt sub-chunk of create_wav_header: the struct.pack call
with code IHHIIHH on the constants 16, 1 (PCM), 1 (mono), the sample rate,
the byte rate, 2 (block align) and 16 (bit depth), identical in
src/sample5/server.py lines 46-56 and src/sample6/server.py lines 60-72.
Every argument of that pack is a constant in range, so it cannot raise. -/
def fmt_chunk : List Nat :=
  fmtMagic ++ u32le 16 ++ u16le 1 ++ u16le 1 ++ u32le AUDIO_SAMPLE_RATE
    ++ u32le (AUDIO_SAMPLE_RATE * 2) ++ u16le 2 ++ u16le 16

/-- Embedding of create_wav_header (src/sample5/server.py lines 33-62 and
src/sample6/server.py lines 36-79, which produce byte-identical output):
RIFF magic, packed chunk size 36 + length, WAVE magic, fmt sub-chunk, data
magic, packed data size. The two input-dependent struct.pack calls can raise
struct.error when their argument exceeds the unsigned 32-bit range; that
outcome is none. -/
def create_wav_header (pcm_data_length : Nat) : Option (List Nat) :=
  (packU32 (36 + pcm_data_length)).bind (fun chunkSize =>
    (packU32 pcm_data_length).bind (fun dataSize =>
      some (riffMagic ++ chunkSize ++ waveMagic ++ fmt_chunk ++ dataMagic ++ dataSize)))

/-- Embedding of the container construction wav = wav_header + message
(src/sample5/server.py line 90, src/sample6/server.py line 141): the full
WAV container for a PCM payload. -/
def wav_of (payload : List Nat) : Option (List Nat) :=
  (create_wav_header payload.length).map (fun h => h ++ payload)

/-- Little-endian unsigned 32-bit read at a byte offset of a byte list
(missing bytes read as 0); used to state the header-field claims. -/
def readU32le (bs : List Nat) (i : Nat) : Nat :=
  bs.getD i 0 + 256 * bs.getD (i + 1) 0 + 65536 * bs.getD (i + 2) 0
    + 16777216 * bs.getD (i + 3) 0

/-- The concrete 44 bytes create_wav_header yields for a payload length
that fits: spelled out entrywise for reasoning about byte offsets. -/
def hdrBytes (L : Nat) : List Nat :=
  [82, 73, 70, 70,
   (36 + L) % 256, (36 + L) / 256 % 256, (36 + L) / 65536 % 256, (36 + L) / 16777216 % 256,
   87, 65, 86, 69,
   102, 109, 116, 32,
   16, 0, 0, 0,
   1, 0,
   1, 0,
   128, 187, 0, 0,
   0, 119, 1, 0,
   2, 0,
   16, 0,
   100, 97, 116, 97,
   L % 256, L / 256 % 256, L / 65536 % 256, L / 16777216 % 256]

theorem create_wav_header_eq (L : Nat) (h : 36 + L < 4294967296) :
    create_wav_header L = some (hdrBytes L) := by
  have h2 : L < 4294967296 := by omega
  simp [create_wav_header, packU32, h, h2, hdrBytes, riffMagic, waveMagic,
        fmtMagic, dataMagic, fmt_chunk, u32le, u16le, AUDIO_SAMPLE_RATE]

theorem hdr_overflow : create_wav_header 4294967260 = none := by
  decide

/-- Claim C1, counterexample: at payload length 4294967260 the chunk-size
argument 36 + L equals 2 to the 32 and no longer fits the unsigned 32-bit
pack, so struct.error is raised and no header is produced, refuting the
claim for arbitrary non-negative L. -/
theorem C1_counterexample : create_wav_header 4294967260 = none := hdr_overflow

/-- Claim C1 (amended): for every payload length L with 36 + L below 2 to
the 32, create_wav_header produces a header whose bytes 0-3 are RIFF, whose
little-endian uint32 at offset 4 equals 36 + L, whose data-chunk size field
at offset 40 equals L, whose length is exactly 44, and header plus payload
has length 44 + L; for larger L the size-field pack raises struct.error. -/
theorem C1_header_fields (L : Nat) (h : 36 + L < 4294967296) :
    ∃ hdr, create_wav_header L = some hdr
      ∧ hdr.take 4 = riffMagic
      ∧ readU32le hdr 4 = 36 + L
      ∧ readU32le hdr 40 = L
      ∧ hdr.length = 44
      ∧ ∀ p : List Nat, p.length = L →
          wav_of p = some (hdr ++ p) ∧ (hdr ++ p).length = 44 + L := by
  refine ⟨hdrBytes L, create_wav_header_eq L h, rfl, ?_, ?_, rfl, ?_⟩
  · have e : readU32le (hdrBytes L) 4
        = (36 + L) % 256 + 256 * ((36 + L) / 256 % 256)
          + 65536 * ((36 + L) / 65536 % 256)
          + 16777216 * ((36 + L) / 16777216 % 256) := rfl
    rw [e]; omega
  · have e : readU32le (hdrBytes L) 40
        = L % 256 + 256 * (L / 256 % 256) + 65536 * (L / 65536 % 256)
          + 16777216 * (L / 16777216 % 256) := rfl
    rw [e]
    have h2 : L < 4294967296 := by omega
    omega
  · intro p hp
    have hl : (hdrBytes L).length = 44 := rfl
    constructor
    · simp [wav_of, hp, create_wav_header_eq L h]
    · simp [List.length_append, hl, hp]

/-- Claim C1, witness at the concrete payload length 10. -/
theorem C1_header_fields_witness :
    36 + 10 < 4294967296 ∧
      (∃ hdr, create_wav_header 10 = some hdr
        ∧ hdr.take 4 = riffMagic
        ∧ readU32le hdr 4 = 36 + 10
        ∧ readU32le hdr 40 = 10
        ∧ hdr.length = 44
        ∧ ∀ p : List Nat, p.length = 10 →
            wav_of p = some (hdr ++ p) ∧ (hdr ++ p).length = 44 + 10) :=
  ⟨by decide, C1_header_fields 10 (by decide)⟩

/-- The encoder output of scenario A: the container for 9600 zero bytes. -/
def wavA : List Nat := (wav_of (List.replicate 9600 0)).getD []

theorem wavA_eq : wavA = hdrBytes 9600 ++ List.replicate 9600 0 := by
  show ((create_wav_header (List.replicate 9600 (0 : Nat)).length).map
      (fun h => h ++ List.replicate 9600 0)).getD []
      = hdrBytes 9600 ++ List.replicate 9600 0
  rw [List.length_replicate, create_wav_header_eq 9600 (by norm_num)]
  rfl

theorem hdrBytes9600 : hdrBytes 9600 =
    [82, 73, 70, 70, 164, 37, 0, 0, 87, 65, 86, 69, 102, 109, 116, 32,
     16, 0, 0, 0, 1, 0, 1, 0, 128, 187, 0, 0, 0, 119, 1, 0, 2, 0, 16, 0,
     100, 97, 116, 97, 128, 37, 0, 0] := by
  decide

/-- Claim C2, counterexample: in the container for 9600 zero bytes the four
bytes at offset 40 are the little-endian size field 128, 37, 0, 0 and not
the data magic, and the little-endian uint32 at offset 44 reads the zero
payload, not 9600: the offsets stated by the claim are off by four. -/
theorem C2_scenarioA_cex :
    (wavA.drop 40).take 4 ≠ [100, 97, 116, 97] ∧ readU32le wavA 44 ≠ 9600 := by
  rw [wavA_eq, hdrBytes9600]
  refine ⟨by decide, by decide⟩

/-- Claim C2 (amended): for the binary frame of 9600 zero bytes the encoder
output begins with the RIFF bytes 82, 73, 70, 70, the little-endian uint32
at offset 4 equals 9636, the data magic sits at offset 36 (not 40), and the
little-endian uint32 at offset 40 (not 44) equals 9600. -/
theorem C2_scenarioA :
    wavA.take 4 = [82, 73, 70, 70]
      ∧ readU32le wavA 4 = 9636
      ∧ (wavA.drop 36).take 4 = [100, 97, 116, 97]
      ∧ readU32le wavA 40 = 9600 := by
  rw [wavA_eq, hdrBytes9600]
  refine ⟨rfl, rfl, rfl, rfl⟩

/-- Claim C9, counterexample: the encoder is not total over all payload
lengths; at length 4294967260 the chunk-size pack overflows the unsigned
32-bit field and struct.error is raised instead of a container. -/
theorem C9_counterexample : wav_of (List.replicate 4294967260 0) = none := by
  show (create_wav_header (List.replicate 4294967260 (0 : Nat)).length).map
      (fun h => h ++ List.replicate 4294967260 0) = none
  rw [List.length_replicate, hdr_overflow]
  rfl

/-- Claim C9 (amended): the encoder accepts every payload whose length L
keeps 36 + L below 2 to the 32 and returns the 44 + L byte container; for
larger payloads the uint32 size-field pack raises struct.error. -/
theorem C9_total_below_u32 (p : List Nat) (h : 36 + p.length < 4294967296) :
    ∃ c, wav_of p = some c ∧ c.length = 44 + p.length := by
  refine ⟨hdrBytes p.length ++ p, ?_, ?_⟩
  · simp [wav_of, create_wav_header_eq p.length h]
  · have hl : (hdrBytes p.length).length = 44 := rfl
    simp [List.length_append, hl]

/-- Claim C9, witness at the concrete three-byte payload. -/
theorem C9_total_below_u32_witness :
    36 + ([1, 2, 3] : List Nat).length < 4294967296 ∧
      ∃ c, wav_of [1, 2, 3] = some c ∧ c.length = 44 + ([1, 2, 3] : List Nat).length :=
  ⟨by decide, C9_total_below_u32 [1, 2, 3] (by decide)⟩

/-- Parsed JSON values, the shape json.loads returns: the servers receive
text frames, parse them with json.loads and look fields up in the resulting
dictionary; the parser itself is the Python standard library, so a text
frame is embedded by its parse outcome (an object keeps its key order, a
duplicate key keeps the last value, as json.loads does). -/
inductive JValue where
  | null
  | bool (b : Bool)
  | num (n : Int)
  | str (s : String)
  | arr (xs : List JValue)
  | obj (fields : List (String × JValue))

/-- Python truthiness of a JSON value, as tested by the line
if not audio_data in src/sample4/server.py line 55. -/
def pyTruthy : JValue → Bool
  | .null => false
  | .bool b => b
  | .num n => n != 0
  | .str s => s != ""
  | .arr xs => !xs.isEmpty
  | .obj fs => !fs.isEmpty

/-- Python dict lookup (dict.get and subscript share it): the last binding
of the key wins, as in a dict built by json.loads. -/
def dictGet (fields : List (String × JValue)) (k : String) : Option JValue :=
  List.lookup k fields.reverse

/-- Exceptions the handlers catch and turn into error replies; str of the
exception is the reply's error field. Messages that CPython composes
internally (JSON decode errors, KeyError, TypeError, struct.error) are kept
abstract; the two messages the repository itself creates or forwards (the
ValueError of sample4 line 57 and the engine failure text) are carried. -/
inductive PyErr where
  | jsonDecode
  | attrError
  | keyError (k : String)
  | valueError (m : String)
  | b64Error (m : String)
  | typeError
  | structError
  | engine (m : String)
deriving DecidableEq

/-- Outbound messages: the success reply with a text field, the error reply
of sample4/sample5 with one error field, and the error reply of sample6
carrying error and type fields (server.py sample6 lines 166-170). -/
inductive Response where
  | transcript (t : String)
  | error (e : PyErr)
  | errorTyped (e : PyErr)
deriving DecidableEq

/-- Result of handling one inbound message: the reply sent on that
iteration, if any, and the audio buffers handed to the transcription
engine during it. -/
structure StepOut where
  resp : Option Response
  calls : List (List Nat)
deriving DecidableEq

/-- Transcription engines are functions from the uploaded bytes to either
transcript text or a raised failure carrying its message. -/
abbrev Engine := List Nat → Except String String

/-- Sextet-to-byte regrouping of base64 data characters: each character
contributes six bits, trailing bits short of a byte are dropped. -/
def sextetsToBytes (ds : List Nat) : List Nat :=
  let n := ds.foldl (fun a d => a * 64 + d) 0
  let totalBits := ds.length * 6
  let outLen := totalBits / 8
  let m := n / 2 ^ (totalBits % 8)
  (List.range outLen).map (fun i => m / 2 ^ (8 * (outLen - 1 - i)) % 256)

/-- Value of a base64 alphabet character. -/
def b64Val (c : Char) : Option Nat :=
  if 65 ≤ c.toNat ∧ c.toNat ≤ 90 then some (c.toNat - 65)
  else if 97 ≤ c.toNat ∧ c.toNat ≤ 122 then some (c.toNat - 97 + 26)
  else if 48 ≤ c.toNat ∧ c.toNat ≤ 57 then some (c.toNat - 48 + 52)
  else if c = '+' then some 62
  else if c = '/' then some 63
  else none

/-- Model of the standard-library call base64.b64decode on a str argument
with default validation (src/sample4/server.py line 61): non-ASCII input
raises, characters outside the alphabet are discarded, the kept length must
pad to a multiple of four, data characters past the first padding sign are
ignored, and a data length of one more than a multiple of four raises.
Faithful on the inputs the claims exercise (valid base64 and short inputs);
the standard library owns the exotic corners. -/
def b64decode (s : String) : Except String (List Nat) :=
  if s.data.any (fun c => 128 ≤ c.toNat) then
    .error "string argument should contain only ASCII characters"
  else
    let kept := s.data.filter (fun c => (b64Val c).isSome || c == '=')
    if kept.length % 4 != 0 then .error "Incorrect padding"
    else
      let ds := (kept.takeWhile (fun c => c != '=')).filterMap b64Val
      if ds.length % 4 == 1 then .error "Invalid base64-encoded string"
      else .ok (sextetsToBytes ds)

/-- The parsed JSON object with a type field equal to audio_chunk and a
data field holding the base64 payload d: the text-frame shape the spec's
scenarios use. -/
def audioChunkMsg (d : String) : JValue :=
  .obj [("type", .str "audio_chunk"), ("data", .str d)]

/-- Embedding of one iteration of the receive loop of handle_connection in
src/sample4/server.py lines 39-76. sample4 runs json.loads on every inbound
message, so a message is embedded by its parse outcome (none when json.loads
raises and the except branch replies with the error). The branches follow
the source: a non-dict parse makes data.get raise AttributeError; a type
field other than the string audio_chunk skips the body and sends nothing; a
missing data field raises KeyError; a falsy data value raises the ValueError
Empty audio data received; base64 decoding may raise; a truthy non-string
data value makes b64decode raise TypeError; otherwise the decoded bytes go
to the remote engine and its text or its failure message is sent back. -/
def step4 (engine : Engine) (msg : Option JValue) : StepOut :=
  match msg with
  | none => ⟨some (.error .jsonDecode), []⟩
  | some (JValue.obj fields) =>
    match dictGet fields "type" with
    | some (JValue.str t) =>
      if t == "audio_chunk" then
        match dictGet fields "data" with
        | none => ⟨some (.error (.keyError "data")), []⟩
        | some v =>
          if pyTruthy v then
            match v with
            | JValue.str s =>
              match b64decode s with
              | .error m => ⟨some (.error (.b64Error m)), []⟩
              | .ok audio_bytes =>
                let r : Response := match engine audio_bytes with
                  | .ok t2 => .transcript t2
                  | .error m => .error (.engine m)
                ⟨some r, [audio_bytes]⟩
            | _ => ⟨some (.error .typeError), []⟩
          else ⟨some (.error (.valueError "Empty audio data received")), []⟩
      else ⟨none, []⟩
    | _ => ⟨none, []⟩
  | some _ => ⟨some (.error .attrError), []⟩

/-- Messages of the binary-framed servers: a binary frame carries raw PCM
bytes; a text frame is embedded by its json.loads outcome as in sample4. -/
inductive Frame5 where
  | binary (payload : List Nat)
  | text (parsed : Option JValue)

/-- Embedding of one iteration of the receive loop of handle_connection in
src/sample5/server.py lines 77-113: a binary frame is wrapped by
create_wav_header (struct.error when the length overflows the size field is
caught by the except branch) and the container goes to the remote engine; a
text frame is parsed by json.loads and then dropped; a text frame that
fails to parse gets the error reply from the except branch. -/
def step5 (engine : Engine) (f : Frame5) : StepOut :=
  match f with
  | .binary payload =>
    match create_wav_header payload.length with
    | none => ⟨some (.error .structError), []⟩
    | some wav_header =>
      let wav := wav_header ++ payload
      let r : Response := match engine wav with
        | .ok t => .transcript t
        | .error m => .error (.engine m)
      ⟨some r, [wav]⟩
  | .text none => ⟨some (.error .jsonDecode), []⟩
  | .text (some _) => ⟨none, []⟩

/-- Lifecycle events of the per-cycle temporary file of sample6. -/
inductive TmpEvent where
  | create
  | removeOk
  | removeFail
deriving DecidableEq

/-- Result of handling one inbound message in sample6: the reply, the wav
buffers written to a temporary file and transcribed, and the temporary-file
events of the cycle. -/
structure StepOut6 where
  resp : Option Response
  calls : List (List Nat)
  events : List TmpEvent
deriving DecidableEq

/-- The temporary-file event os.remove produces under the given outcome of
the removal (an OSError message when the filesystem refuses). -/
def rmEvent (removeResult : Except String Unit) : TmpEvent :=
  match removeResult with
  | .ok _ => .removeOk
  | .error _ => .removeFail

/-- Embedding of one iteration of the receive loop of handle_connection in
src/sample6/server.py lines 115-173. A binary frame is wrapped with
create_wav_header, written to a NamedTemporaryFile, transcribed by the
resident whisper model inside a try whose finally removes the file (an
OSError of os.remove is caught there and only logged); the success reply
carries the stripped transcript, a failure propagates to the outer except
which replies with the message and the exception type. The removal outcome
is an oracle argument, one per cycle. A text frame is parsed and dropped as
in sample5. -/
def step6 (engine : Engine) (removeResult : Except String Unit) (f : Frame5) : StepOut6 :=
  match f with
  | .binary payload =>
    match create_wav_header payload.length with
    | none => ⟨some (.errorTyped .structError), [], []⟩
    | some wav_header =>
      let wav := wav_header ++ payload
      let r : Response := match engine wav with
        | .ok t => .transcript t.trim
        | .error m => .errorTyped (.engine m)
      ⟨some r, [wav], [.create, rmEvent removeResult]⟩
  | .text none => ⟨some (.errorTyped .jsonDecode), [], []⟩
  | .text (some _) => ⟨none, [], []⟩

/-- Replies a sample4 connection emits for its inbound messages, in order:
the async for loop of handle_connection awaits each iteration fully before
pulling the next message, so the session is a fold over the message list. -/
def session4 (engine : Engine) (msgs : List (Option JValue)) : List Response :=
  msgs.filterMap (fun m => (step4 engine m).resp)

/-- Replies a sample5 connection emits for its inbound frames, in order. -/
def session5 (engine : Engine) (fs : List Frame5) : List Response :=
  fs.filterMap (fun f => (step5 engine f).resp)

/-- Replies a sample6 connection emits for its inbound frames, in order,
under a fixed removal outcome for the per-cycle temporary files. -/
def session6 (engine : Engine) (removeResult : Except String Unit)
    (fs : List Frame5) : List Response :=
  fs.filterMap (fun f => (step6 engine removeResult f).resp)

theorem toList_len_le_one {α : Type} (o : Option α) : o.toList.length ≤ 1 := by
  cases o <;> simp

theorem session4_split (e : Engine) (xs : List (Option JValue)) (m : Option JValue)
    (ys : List (Option JValue)) :
    session4 e (xs ++ m :: ys)
      = session4 e xs ++ (step4 e m).resp.toList ++ session4 e ys := by
  simp only [session4, List.filterMap_append, List.filterMap_cons, List.append_assoc]
  cases h : (step4 e m).resp <;> simp [h]

theorem session5_split (e : Engine) (fs : List Frame5) (f : Frame5)
    (gs : List Frame5) :
    session5 e (fs ++ f :: gs)
      = session5 e fs ++ (step5 e f).resp.toList ++ session5 e gs := by
  simp only [session5, List.filterMap_append, List.filterMap_cons, List.append_assoc]
  cases h : (step5 e f).resp <;> simp [h]

theorem session6_split (e : Engine) (rm : Except String Unit) (fs : List Frame5)
    (f : Frame5) (gs : List Frame5) :
    session6 e rm (fs ++ f :: gs)
      = session6 e rm fs ++ (step6 e rm f).resp.toList ++ session6 e rm gs := by
  simp only [session6, List.filterMap_append, List.filterMap_cons, List.append_assoc]
  cases h : (step6 e rm f).resp <;> simp [h]

/-- Claim C3, counterexample: one inbound frame, zero responses. The parsed
control message whose type field is ping is skipped by the audio_chunk test
of sample4 line 50 without any reply, so a session that receives one frame
can emit no response at all, refuting one response per frame. -/
theorem C3_counterexample :
    session4 (fun _ => Except.ok "ok")
      [some (JValue.obj [("type", JValue.str "ping")])] = [] := rfl

/-- Claim C3 (amended): within one connection each inbound frame produces at
most one response; the responses of earlier frames are all emitted before
the frame under processing contributes its own, and later frames follow, so
responses keep frame order and frame n is answered (when it is) before
frame n+1 begins; well-formed control frames whose type is not the audio
tag (sample4) and all valid-JSON text frames (sample5) produce no response,
so a session can emit fewer responses than frames. -/
theorem C3_serial_replies (e : Engine)
    (xs ys : List (Option JValue)) (m : Option JValue)
    (fs gs : List Frame5) (f : Frame5) :
    session4 e (xs ++ m :: ys)
      = session4 e xs ++ (step4 e m).resp.toList ++ session4 e ys
    ∧ (step4 e m).resp.toList.length ≤ 1
    ∧ session5 e (fs ++ f :: gs)
      = session5 e fs ++ (step5 e f).resp.toList ++ session5 e gs
    ∧ (step5 e f).resp.toList.length ≤ 1 :=
  ⟨session4_split e xs m ys, toList_len_le_one _,
   session5_split e fs f gs, toList_len_le_one _⟩

/-- Claim C6: for the text frame whose parsed JSON object has type
audio_chunk and an empty data string, sample4 raises the ValueError whose
message is Empty audio data received before any engine call, and the except
branch sends exactly that message back: the reply indicates empty audio
data and the gateway is never invoked, whatever engine is installed. -/
theorem C6_empty_audio (e : Engine) :
    step4 e (some (audioChunkMsg ""))
      = ⟨some (.error (.valueError "Empty audio data received")), []⟩ := rfl

/-- Claim C10: in the binary-framed variants every text frame that parses
as valid JSON, whatever value it holds (an audio_chunk object included), is
assigned to data by json.loads and then dropped: no reply is sent, no
engine call and no temporary file is made, in sample5 and sample6 alike. -/
theorem C10_valid_json_noop (e : Engine) (rm : Except String Unit) (j : JValue) :
    step5 e (.text (some j)) = ⟨none, []⟩
      ∧ step6 e rm (.text (some j)) = ⟨none, [], []⟩ :=
  ⟨rfl, rfl⟩

/-- Claim C7, counterexample: for the text frame whose data field is the
base64 AAAAAA== (four zero bytes), sample4 hands the gateway the raw
four-byte payload, not a 48-byte container (no variant runs text-frame
audio through create_wav_header), and sample5 makes no gateway call at all
and sends nothing: the claimed 48-byte container handed to the gateway
exists in neither cited variant. -/
theorem C7_counterexample :
    (step4 (fun _ => Except.ok "ok") (some (audioChunkMsg "AAAAAA=="))).calls
        = [[0, 0, 0, 0]]
    ∧ step5 (fun _ => Except.ok "ok") (Frame5.text (some (audioChunkMsg "AAAAAA==")))
        = ⟨none, []⟩ :=
  ⟨rfl, rfl⟩

/-- Claim C7 (amended): the base64 AAAAAA== decodes to a four-byte payload;
the text-framed variant sample4 classifies the frame as audio and hands
exactly those four raw bytes to the gateway, without container encoding; in
the binary-framed variant sample5 the same text frame is a no-op with no
gateway call; a four-byte payload run through the container encoder would
yield a 48-byte container, but only binary frames take that path. -/
theorem C7_scenarioC (e : Engine) :
    b64decode "AAAAAA==" = .ok [0, 0, 0, 0]
    ∧ (step4 e (some (audioChunkMsg "AAAAAA=="))).calls = [[0, 0, 0, 0]]
    ∧ step5 e (Frame5.text (some (audioChunkMsg "AAAAAA=="))) = ⟨none, []⟩
    ∧ (wav_of [0, 0, 0, 0]).map List.length = some 48 :=
  ⟨rfl, rfl, rfl, rfl⟩

theorem step5_overflow (e : Engine) (p : List Nat)
    (h : create_wav_header p.length = none) :
    step5 e (.binary p) = ⟨some (.error .structError), []⟩ := by
  simp [step5, h]

theorem step6_overflow (e : Engine) (rm : Except String Unit) (p : List Nat)
    (h : create_wav_header p.length = none) :
    step6 e rm (.binary p) = ⟨some (.errorTyped .structError), [], []⟩ := by
  simp [step6, h]

/-- Claim C8, counterexample: a binary frame of 4294967260 bytes is still
classified as audio, but create_wav_header raises struct.error on its
length, the except branch answers with that error and the transcription
engine is never reached, so not every binary frame completes the
container-encode-then-transcribe path. -/
theorem C8_counterexample :
    step5 (fun _ => Except.ok "ok") (Frame5.binary (List.replicate 4294967260 0))
        = ⟨some (.error .structError), []⟩
    ∧ step6 (fun _ => Except.ok "ok") (Except.ok ())
          (Frame5.binary (List.replicate 4294967260 0))
        = ⟨some (.errorTyped .structError), [], []⟩ := by
  have h : create_wav_header (List.replicate 4294967260 (0 : Nat)).length = none := by
    rw [List.length_replicate]; exact hdr_overflow
  exact ⟨step5_overflow _ _ h, step6_overflow _ _ _ h⟩

/-- Claim C8 (amended): every binary frame is classified as audio whatever
its byte content; whenever its length fits the header size field (all
lengths up to 2 to the 32 minus 37, a zero-length frame included), the
frame goes through container encoding and exactly the encoded container is
handed to the transcription engine and a reply is sent, in sample5 and in
sample6, where the cycle also creates and removes its temporary file. -/
theorem C8_binary_always_audio (e : Engine) (rm : Except String Unit)
    (p hdr : List Nat) (h : create_wav_header p.length = some hdr) :
    (step5 e (.binary p)).calls = [hdr ++ p]
    ∧ (step5 e (.binary p)).resp.isSome = true
    ∧ (step6 e rm (.binary p)).calls = [hdr ++ p]
    ∧ (step6 e rm (.binary p)).events = [.create, rmEvent rm] := by
  refine ⟨?_, ?_, ?_, ?_⟩ <;> simp [step5, step6, h]

/-- Claim C8, witness at the zero-length binary frame. -/
theorem C8_binary_always_audio_witness :
    (step5 (fun _ => Except.ok "ok") (Frame5.binary [])).calls
        = [(create_wav_header 0).getD [] ++ []]
    ∧ (step5 (fun _ => Except.ok "ok") (Frame5.binary [])).resp.isSome = true
    ∧ (step6 (fun _ => Except.ok "ok") (Except.ok ()) (Frame5.binary [])).calls
        = [(create_wav_header 0).getD [] ++ []]
    ∧ (step6 (fun _ => Except.ok "ok") (Except.ok ()) (Frame5.binary [])).events
        = [.create, rmEvent (Except.ok ())] :=
  C8_binary_always_audio (fun _ => Except.ok "ok") (Except.ok ()) []
    ((create_wav_header 0).getD []) rfl

/-- The reply sample6 produces for the outcome of one inference call: the
stripped transcript on success, the message with the exception type on
failure. -/
def respOfInference (r : Except String String) : Response :=
  match r with
  | .ok t => .transcript t.trim
  | .error m => .errorTyped (.engine m)

/-- Claim C5: in sample6 every binary-frame cycle creates its temporary
file and then attempts its removal, whatever the inference outcome (the
finally block runs when whisper raises too); the reply of the cycle is a
function of the inference outcome alone, identical under any removal
outcome, so a failed deletion is never surfaced to the client and does not
change the TranscriptResult or ErrorResult of the in-flight request. -/
theorem C5_tmpfile_cleanup (e : Engine) (rm rm' : Except String Unit)
    (p hdr : List Nat) (hh : create_wav_header p.length = some hdr) :
    (step6 e rm (.binary p)).events = [TmpEvent.create, rmEvent rm]
    ∧ (step6 e rm (.binary p)).resp = (step6 e rm' (.binary p)).resp
    ∧ (step6 e rm (.binary p)).resp = some (respOfInference (e (hdr ++ p))) := by
  cases he : e (hdr ++ p) <;>
    exact ⟨by simp [step6, hh, he], by simp [step6, hh, he],
           by simp [step6, hh, he, respOfInference]⟩

/-- Claim C5, witness: the empty binary frame with failing inference and a
refused removal against a successful removal. -/
theorem C5_tmpfile_cleanup_witness :
    (step6 (fun _ => Except.error "boom") (Except.error "Permission denied")
        (Frame5.binary [])).events
      = [TmpEvent.create, rmEvent (Except.error "Permission denied")]
    ∧ (step6 (fun _ => Except.error "boom") (Except.error "Permission denied")
          (Frame5.binary [])).resp
      = (step6 (fun _ => Except.error "boom") (Except.ok ())
          (Frame5.binary [])).resp
    ∧ (step6 (fun _ => Except.error "boom") (Except.error "Permission denied")
          (Frame5.binary [])).resp
      = some (respOfInference ((fun _ => Except.error "boom")
          ((create_wav_header 0).getD [] ++ ([] : List Nat)))) :=
  C5_tmpfile_cleanup (fun _ => Except.error "boom")
    (Except.error "Permission denied") (Except.ok ()) []
    ((create_wav_header 0).getD []) rfl

/-- Claim C4: when the engine call for an audio frame fails with some
message, the session answers that frame with an ErrorResult carrying the
message and goes on: the replies for the frames before and after it are
exactly those of the same session run on those frames alone, so the next
frame is processed normally and nothing but transport disconnection ends
the loop; proved for the remote variant sample4 on a base64 audio-chunk
frame and for the local variant sample6 on a binary frame. -/
theorem C4_engine_failure_recovered (e : Engine) (rm : Except String Unit)
    (d : String) (p : List Nat) (msg : String)
    (xs ys : List (Option JValue)) (fs gs : List Frame5) (hdr : List Nat)
    (hb : b64decode d = .ok p) (hd : d ≠ "")
    (he : e p = .error msg)
    (hh : create_wav_header p.length = some hdr)
    (he6 : e (hdr ++ p) = .error msg) :
    session4 e (xs ++ some (audioChunkMsg d) :: ys)
      = session4 e xs ++ Response.error (PyErr.engine msg) :: session4 e ys
    ∧ session6 e rm (fs ++ Frame5.binary p :: gs)
      = session6 e rm fs ++ Response.errorTyped (PyErr.engine msg) :: session6 e rm gs := by
  have hty : dictGet [("type", JValue.str "audio_chunk"), ("data", JValue.str d)] "type"
      = some (JValue.str "audio_chunk") := rfl
  have hda : dictGet [("type", JValue.str "audio_chunk"), ("data", JValue.str d)] "data"
      = some (JValue.str d) := rfl
  have ht : pyTruthy (JValue.str d) = true := by
    simp [pyTruthy, bne_iff_ne]; exact hd
  have h4 : step4 e (some (audioChunkMsg d))
      = ⟨some (.error (.engine msg)), [p]⟩ := by
    simp [step4, audioChunkMsg, hty, hda, ht, hb, he]
  have h6 : step6 e rm (.binary p)
      = ⟨some (.errorTyped (.engine msg)), [hdr ++ p], [.create, rmEvent rm]⟩ := by
    simp [step6, hh, he6]
  constructor
  · rw [session4_split, h4]
    simp
  · rw [session6_split, h6]
    simp

/-- Claim C4, witness: an engine that always fails with the message boom,
the four-zero-byte audio chunk in both transports, empty surrounding
traffic. -/
theorem C4_engine_failure_recovered_witness :
    session4 (fun _ => Except.error "boom")
        ([] ++ some (audioChunkMsg "AAAAAA==") :: [])
      = session4 (fun _ => Except.error "boom") []
        ++ Response.error (PyErr.engine "boom")
          :: session4 (fun _ => Except.error "boom") []
    ∧ session6 (fun _ => Except.error "boom") (Except.ok ())
        ([] ++ Frame5.binary [0, 0, 0, 0] :: [])
      = session6 (fun _ => Except.error "boom") (Except.ok ()) []
        ++ Response.errorTyped (PyErr.engine "boom")
          :: session6 (fun _ => Except.error "boom") (Except.ok ()) [] :=
  C4_engine_failure_recovered (fun _ => Except.error "boom") (Except.ok ())
    "AAAAAA==" [0, 0, 0, 0] "boom" [] [] [] [] ((create_wav_header 4).getD [])
    rfl (by decide) rfl rfl rfl
